import Mathlib

/-!
# Verification of the libxm-rs binding (`src/lib.rs`)

Shallow embedding of the Rust binding `libxm-rs` around the native libxm
XM-module player.  The binding code in `src/lib.rs` is embedded faithfully:
its match on the native creation result code, its `assert!` preconditions
(a failed assertion is modelled as `Option.none`, i.e. a panic), and its
`CStr`-based string access.  The native library itself (the `ffi` module
and the C sources) is not part of the binding crate's `src` tree; its
observable behaviour is modelled from the specification: a pure state
record `xm_context` and pure accessor / mutator functions over it.
-/

/-- The possible errors from `XMContext::new` (Rust enum `XMError`). -/
inductive XMError where
  /-- An unknown error code reported by libxm. -/
  | Unknown (code : Int)
  /-- The module data is corrupted or invalid. -/
  | ModuleDataNotSane
  /-- There was an issue allocating additional memory. -/
  | MemoryAllocationFailed
deriving Repr, DecidableEq

/-- Return value of `XMContext::playing_speed` (Rust struct `PlayingSpeed`). -/
structure PlayingSpeed where
  bpm : Nat
  tempo : Nat
deriving Repr, DecidableEq

/-- Return value of `XMContext::position` (Rust struct `Position`). -/
structure Position where
  pattern_index : Nat
  pattern : Nat
  row : Nat
  samples : Nat
deriving Repr, DecidableEq

/-- Modelled from the spec: the state of the native `xm_context_t`, which is
not part of the binding crate's sources.  It records the immutable song data
the introspection API reads (name bytes as stored on the wire, channel /
pattern / instrument counts) and the mutable playback state (position,
generated-sample counter, loop counters, mute flags).  `patternRows.length`
is the number of patterns and `instrumentSamples.length` the number of
instruments; instrument `i` (1-indexed in the API) has
`instrumentSamples[i-1]` samples. -/
structure xm_context where
  stringsEnabled : Bool
  moduleNameRaw : List Nat
  trackerNameRaw : List Nat
  numChannels : Nat
  moduleLength : Nat
  patternRows : List Nat
  instrumentSamples : List Nat
  bpm : Nat
  tempo : Nat
  potIndex : Nat
  patternNum : Nat
  rowNum : Nat
  tickNum : Nat
  generatedSamples : Nat
  loopCount : Nat
  maxLoopCount : Nat
  latestTriggerInstrument : List Nat
  latestTriggerSample : List (List Nat)
  latestTriggerChannel : List Nat
  channelMuted : List Bool
  instrumentMuted : List Bool
deriving Repr, DecidableEq

/-- Modelled from the spec: `xm_generate_samples` always fills the whole
buffer — it returns exactly the requested number of stereo frames — and
advances the monotonic `generated_samples` counter by that amount. -/
def xm_generate_samples (c : xm_context) (numsamples : Nat) : Nat × xm_context :=
  (numsamples, { c with generatedSamples := c.generatedSamples + numsamples })

/-- Modelled from the spec: `xm_set_max_loop_count` stores the new limit. -/
def xm_set_max_loop_count (c : xm_context) (loopcnt : Nat) : xm_context :=
  { c with maxLoopCount := loopcnt }

/-- Modelled from the spec: `xm_get_loop_count` reads the loop counter. -/
def xm_get_loop_count (c : xm_context) : Nat :=
  c.loopCount

/-- Modelled from the spec: with `STRINGS` enabled the native library retains
the raw module-name bytes from the header in a NUL-terminated buffer and
`xm_get_module_name` returns a pointer to it; with `STRINGS` disabled it
returns `NULL` (here `none`). -/
def xm_get_module_name (c : xm_context) : Option (List Nat) :=
  if c.stringsEnabled then some (c.moduleNameRaw ++ [0]) else none

/-- Modelled from the spec: like `xm_get_module_name`, for the tracker name. -/
def xm_get_tracker_name (c : xm_context) : Option (List Nat) :=
  if c.stringsEnabled then some (c.trackerNameRaw ++ [0]) else none

/-- Modelled from the spec: `xm_get_number_of_channels`. -/
def xm_get_number_of_channels (c : xm_context) : Nat :=
  c.numChannels

/-- Modelled from the spec: `xm_get_module_length` (in patterns). -/
def xm_get_module_length (c : xm_context) : Nat :=
  c.moduleLength

/-- Modelled from the spec: `xm_get_number_of_patterns`. -/
def xm_get_number_of_patterns (c : xm_context) : Nat :=
  c.patternRows.length

/-- Modelled from the spec: `xm_get_number_of_rows` for a 0-indexed pattern. -/
def xm_get_number_of_rows (c : xm_context) (pattern : Nat) : Nat :=
  c.patternRows.getD pattern 0

/-- Modelled from the spec: `xm_get_number_of_instruments`. -/
def xm_get_number_of_instruments (c : xm_context) : Nat :=
  c.instrumentSamples.length

/-- Modelled from the spec: `xm_get_number_of_samples` for a 1-indexed
instrument. -/
def xm_get_number_of_samples (c : xm_context) (instrument : Nat) : Nat :=
  c.instrumentSamples.getD (instrument - 1) 0

/-- Modelled from the spec: `xm_get_playing_speed` writes `(bpm, tempo)`. -/
def xm_get_playing_speed (c : xm_context) : Nat × Nat :=
  (c.bpm, c.tempo)

/-- Modelled from the spec: `xm_get_position` writes the POT index, pattern
number, row and total generated samples. -/
def xm_get_position (c : xm_context) : Nat × Nat × Nat × Nat :=
  (c.potIndex, c.patternNum, c.rowNum, c.generatedSamples)

/-- Modelled from the spec: latest trigger timestamp of a 1-indexed
instrument. -/
def xm_get_latest_trigger_of_instrument (c : xm_context) (instrument : Nat) : Nat :=
  c.latestTriggerInstrument.getD (instrument - 1) 0

/-- Modelled from the spec: latest trigger timestamp of a 0-indexed sample of
a 1-indexed instrument. -/
def xm_get_latest_trigger_of_sample (c : xm_context) (instrument sample : Nat) : Nat :=
  (c.latestTriggerSample.getD (instrument - 1) []).getD sample 0

/-- Modelled from the spec: latest trigger timestamp of a 1-indexed channel. -/
def xm_get_latest_trigger_of_channel (c : xm_context) (channel : Nat) : Nat :=
  c.latestTriggerChannel.getD (channel - 1) 0

/-- Modelled from the spec: `xm_seek` moves the playback cursor, best-effort. -/
def xm_seek (c : xm_context) (pot row tick : Nat) : xm_context :=
  { c with potIndex := pot, rowNum := row, tickNum := tick }

/-- Modelled from the spec: `xm_mute_channel` sets the mute flag of a
1-indexed channel and returns the previous flag. -/
def xm_mute_channel (c : xm_context) (channel : Nat) (mute : Bool) : Bool × xm_context :=
  (c.channelMuted.getD (channel - 1) false,
    { c with channelMuted := c.channelMuted.set (channel - 1) mute })

/-- Modelled from the spec: `xm_mute_instrument` sets the mute flag of a
1-indexed instrument and returns the previous flag. -/
def xm_mute_instrument (c : xm_context) (instrument : Nat) (mute : Bool) : Bool × xm_context :=
  (c.instrumentMuted.getD (instrument - 1) false,
    { c with instrumentMuted := c.instrumentMuted.set (instrument - 1) mute })

/-- `std::ffi::CStr::from_ptr(p).to_bytes()`: the bytes of a NUL-terminated
buffer up to, and not including, the first NUL byte. -/
def cstr_bytes (buf : List Nat) : List Nat :=
  buf.takeWhile (fun b => b != 0)

/-- The Rust `XMContext` wrapper: it owns (a raw pointer to) the native
context. -/
structure XMContext where
  raw : xm_context
deriving Repr, DecidableEq

/-- `XMContext::new`, embedded from `src/lib.rs`.  The native call
`xm_create_context_safe` is external; its result code (and the context it
allocates on success) are taken as parameters, and the binding's `match` on
the code is embedded verbatim. -/
def XMContext.new (create_result : Int) (raw : xm_context) : Except XMError XMContext :=
  if create_result = 0 then Except.ok ⟨raw⟩
  else if create_result = 1 then Except.error XMError.ModuleDataNotSane
  else if create_result = 2 then Except.error XMError.MemoryAllocationFailed
  else Except.error (XMError.Unknown create_result)

/-- `XMContext::generate_samples`, embedded from `src/lib.rs`.  The `f32`
output buffer is represented by its length; `none` models the
`assert!(output.len() % 2 == 0)` panic.  On success the returned `Nat` is
the value `(samples * 2) as usize` computed by the binding. -/
def XMContext.generate_samples (ctx : XMContext) (output_len : Nat) :
    Option (Nat × XMContext) :=
  if output_len % 2 = 0 then
    let res := xm_generate_samples ctx.raw (output_len / 2)
    some (res.1 * 2, ⟨res.2⟩)
  else
    none

/-- `XMContext::set_max_loop_count`, embedded from `src/lib.rs` (no
precondition, no return value). -/
def XMContext.set_max_loop_count (ctx : XMContext) (loopcnt : Nat) : XMContext :=
  ⟨xm_set_max_loop_count ctx.raw loopcnt⟩

/-- `XMContext::loop_count`, embedded from `src/lib.rs`. -/
def XMContext.loop_count (ctx : XMContext) : Nat :=
  xm_get_loop_count ctx.raw

/-- `XMContext::module_name`, embedded from `src/lib.rs`: `None` on a null
pointer, otherwise the `CStr` bytes of the returned buffer. -/
def XMContext.module_name (ctx : XMContext) : Option (List Nat) :=
  match xm_get_module_name ctx.raw with
  | none => none
  | some name => some (cstr_bytes name)

/-- `XMContext::tracker_name`, embedded from `src/lib.rs`. -/
def XMContext.tracker_name (ctx : XMContext) : Option (List Nat) :=
  match xm_get_tracker_name ctx.raw with
  | none => none
  | some name => some (cstr_bytes name)

/-- `XMContext::number_of_channels`, embedded from `src/lib.rs`. -/
def XMContext.number_of_channels (ctx : XMContext) : Nat :=
  xm_get_number_of_channels ctx.raw

/-- `XMContext::module_length`, embedded from `src/lib.rs`. -/
def XMContext.module_length (ctx : XMContext) : Nat :=
  xm_get_module_length ctx.raw

/-- `XMContext::number_of_patterns`, embedded from `src/lib.rs`. -/
def XMContext.number_of_patterns (ctx : XMContext) : Nat :=
  xm_get_number_of_patterns ctx.raw

/-- `XMContext::number_of_rows`, embedded from `src/lib.rs`:
`assert!(pattern < self.number_of_patterns())`, then the native read. -/
def XMContext.number_of_rows (ctx : XMContext) (pattern : Nat) : Option Nat :=
  if pattern < ctx.number_of_patterns then
    some (xm_get_number_of_rows ctx.raw pattern)
  else
    none

/-- `XMContext::number_of_instruments`, embedded from `src/lib.rs`. -/
def XMContext.number_of_instruments (ctx : XMContext) : Nat :=
  xm_get_number_of_instruments ctx.raw

/-- `XMContext::number_of_samples`, embedded from `src/lib.rs`:
`assert!(instrument >= 1)` and `assert!(instrument <= number_of_instruments)`,
then the native read. -/
def XMContext.number_of_samples (ctx : XMContext) (instrument : Nat) : Option Nat :=
  if 1 ≤ instrument then
    if instrument ≤ ctx.number_of_instruments then
      some (xm_get_number_of_samples ctx.raw instrument)
    else
      none
  else
    none

/-- `XMContext::playing_speed`, embedded from `src/lib.rs`. -/
def XMContext.playing_speed (ctx : XMContext) : PlayingSpeed :=
  { bpm := (xm_get_playing_speed ctx.raw).1,
    tempo := (xm_get_playing_speed ctx.raw).2 }

/-- `XMContext::position`, embedded from `src/lib.rs`. -/
def XMContext.position (ctx : XMContext) : Position :=
  { pattern_index := (xm_get_position ctx.raw).1,
    pattern := (xm_get_position ctx.raw).2.1,
    row := (xm_get_position ctx.raw).2.2.1,
    samples := (xm_get_position ctx.raw).2.2.2 }

/-- `XMContext::latest_trigger_of_instrument`, embedded from `src/lib.rs`
with its two range asserts. -/
def XMContext.latest_trigger_of_instrument (ctx : XMContext) (instrument : Nat) :
    Option Nat :=
  if 1 ≤ instrument then
    if instrument ≤ ctx.number_of_instruments then
      some (xm_get_latest_trigger_of_instrument ctx.raw instrument)
    else
      none
  else
    none

/-- `XMContext::latest_trigger_of_sample`, embedded from `src/lib.rs` with
its three range asserts. -/
def XMContext.latest_trigger_of_sample (ctx : XMContext) (instrument sample : Nat) :
    Option Nat :=
  if 1 ≤ instrument then
    if instrument ≤ ctx.number_of_instruments then
      if sample < xm_get_number_of_samples ctx.raw instrument then
        some (xm_get_latest_trigger_of_sample ctx.raw instrument sample)
      else
        none
    else
      none
  else
    none

/-- `XMContext::latest_trigger_of_channel`, embedded from `src/lib.rs` with
its two range asserts. -/
def XMContext.latest_trigger_of_channel (ctx : XMContext) (channel : Nat) :
    Option Nat :=
  if 1 ≤ channel then
    if channel ≤ ctx.number_of_channels then
      some (xm_get_latest_trigger_of_channel ctx.raw channel)
    else
      none
  else
    none

/-- `XMContext::seek`, embedded from `src/lib.rs` (no precondition). -/
def XMContext.seek (ctx : XMContext) (pot row tick : Nat) : XMContext :=
  ⟨xm_seek ctx.raw pot row tick⟩

/-- `XMContext::mute_channel`, embedded from `src/lib.rs` with its two range
asserts; returns the previous mute flag. -/
def XMContext.mute_channel (ctx : XMContext) (channel : Nat) (mute : Bool) :
    Option (Bool × XMContext) :=
  if 1 ≤ channel then
    if channel ≤ ctx.number_of_channels then
      let res := xm_mute_channel ctx.raw channel mute
      some (res.1, ⟨res.2⟩)
    else
      none
  else
    none

/-- `XMContext::mute_instrument`, embedded from `src/lib.rs` with its two
range asserts; returns the previous mute flag. -/
def XMContext.mute_instrument (ctx : XMContext) (instrument : Nat) (mute : Bool) :
    Option (Bool × XMContext) :=
  if 1 ≤ instrument then
    if instrument ≤ ctx.number_of_instruments then
      let res := xm_mute_instrument ctx.raw instrument mute
      some (res.1, ⟨res.2⟩)
    else
      none
  else
    none

/-- One call to a public method of `XMContext` other than `new`, with its
arguments.  `generateSamples` carries the output-buffer length. -/
inductive ApiCall where
  | generateSamples (len : Nat)
  | setMaxLoopCount (n : Nat)
  | loopCount
  | moduleName
  | trackerName
  | numberOfChannels
  | moduleLength
  | numberOfPatterns
  | numberOfRows (pattern : Nat)
  | numberOfInstruments
  | numberOfSamples (instrument : Nat)
  | playingSpeed
  | position
  | latestTriggerOfInstrument (instrument : Nat)
  | latestTriggerOfSample (instrument sample : Nat)
  | latestTriggerOfChannel (channel : Nat)
  | seek (pot row tick : Nat)
  | muteChannel (channel : Nat) (mute : Bool)
  | muteInstrument (instrument : Nat) (mute : Bool)
deriving Repr, DecidableEq

/-- The value returned by one `ApiCall`. -/
inductive ApiResult where
  | unit
  | nat (n : Nat)
  | bytes (b : Option (List Nat))
  | speed (s : PlayingSpeed)
  | pos (p : Position)
  | bool (b : Bool)
deriving Repr, DecidableEq

/-- Execute one API call on a context: `none` models a panic (a failed
`assert!` in the binding); otherwise the returned value and the context
afterwards.  Methods taking `&self` leave the context unchanged. -/
def exec (c : ApiCall) (ctx : XMContext) : Option (ApiResult × XMContext) :=
  match c with
  | .generateSamples len =>
      (ctx.generate_samples len).map (fun r => (.nat r.1, r.2))
  | .setMaxLoopCount n => some (.unit, ctx.set_max_loop_count n)
  | .loopCount => some (.nat ctx.loop_count, ctx)
  | .moduleName => some (.bytes ctx.module_name, ctx)
  | .trackerName => some (.bytes ctx.tracker_name, ctx)
  | .numberOfChannels => some (.nat ctx.number_of_channels, ctx)
  | .moduleLength => some (.nat ctx.module_length, ctx)
  | .numberOfPatterns => some (.nat ctx.number_of_patterns, ctx)
  | .numberOfRows p => (ctx.number_of_rows p).map (fun n => (.nat n, ctx))
  | .numberOfInstruments => some (.nat ctx.number_of_instruments, ctx)
  | .numberOfSamples i => (ctx.number_of_samples i).map (fun n => (.nat n, ctx))
  | .playingSpeed => some (.speed ctx.playing_speed, ctx)
  | .position => some (.pos ctx.position, ctx)
  | .latestTriggerOfInstrument i =>
      (ctx.latest_trigger_of_instrument i).map (fun n => (.nat n, ctx))
  | .latestTriggerOfSample i s =>
      (ctx.latest_trigger_of_sample i s).map (fun n => (.nat n, ctx))
  | .latestTriggerOfChannel ch =>
      (ctx.latest_trigger_of_channel ch).map (fun n => (.nat n, ctx))
  | .seek pot row tick => some (.unit, ctx.seek pot row tick)
  | .muteChannel ch m => (ctx.mute_channel ch m).map (fun r => (.bool r.1, r.2))
  | .muteInstrument i m => (ctx.mute_instrument i m).map (fun r => (.bool r.1, r.2))

/-- The introspection getters named by the spec: the `&self` methods that
read state without advancing playback. -/
def ApiCall.isGetter : ApiCall → Bool
  | .loopCount | .moduleName | .trackerName | .numberOfChannels
  | .moduleLength | .numberOfPatterns | .numberOfRows _
  | .numberOfInstruments | .numberOfSamples _ | .playingSpeed
  | .position | .latestTriggerOfInstrument _ | .latestTriggerOfSample _ _
  | .latestTriggerOfChannel _ => true
  | _ => false

/-- The documented precondition of each API call (doc comments of
`src/lib.rs` and spec section 6): even buffer length for `generate_samples`,
and the documented index ranges. -/
def precondHolds (c : ApiCall) (ctx : XMContext) : Bool :=
  match c with
  | .generateSamples len => len % 2 == 0
  | .numberOfRows p => decide (p < ctx.number_of_patterns)
  | .numberOfSamples i =>
      decide (1 ≤ i) && decide (i ≤ ctx.number_of_instruments)
  | .latestTriggerOfInstrument i =>
      decide (1 ≤ i) && decide (i ≤ ctx.number_of_instruments)
  | .latestTriggerOfSample i s =>
      decide (1 ≤ i) && decide (i ≤ ctx.number_of_instruments)
        && decide (s < xm_get_number_of_samples ctx.raw i)
  | .latestTriggerOfChannel ch =>
      decide (1 ≤ ch) && decide (ch ≤ ctx.number_of_channels)
  | .muteChannel ch _ =>
      decide (1 ≤ ch) && decide (ch ≤ ctx.number_of_channels)
  | .muteInstrument i _ =>
      decide (1 ≤ i) && decide (i ≤ ctx.number_of_instruments)
  | _ => true

/-- Run a sequence of API calls; `none` as soon as one call panics. -/
def runCalls (ctx : XMContext) : List ApiCall → Option (List ApiResult × XMContext)
  | [] => some ([], ctx)
  | c :: cs =>
      match exec c ctx with
      | none => none
      | some (r, ctx') =>
          match runCalls ctx' cs with
          | none => none
          | some (rs, ctx'') => some (r :: rs, ctx'')

/-- A whole session: create a context from the module bytes and the rate
through a native creation function `create` (the native loader, abstracted
as a function from bytes and rate to a result code and a context), then run
the API calls. -/
def runSession (create : List Nat → Nat → Int × xm_context)
    (bytes : List Nat) (rate : Nat) (calls : List ApiCall) :
    Except XMError (Option (List ApiResult × XMContext)) :=
  match XMContext.new (create bytes rate).1 (create bytes rate).2 with
  | .ok ctx => .ok (runCalls ctx calls)
  | .error e => .error e

/-- A small concrete native context used as a test fixture: strings enabled,
module name `"A"` followed by 19 zero-padding bytes (as on the wire), two
channels, one 64-row pattern, one single-sample instrument. -/
def sampleCtx : xm_context where
  stringsEnabled := true
  moduleNameRaw := 65 :: List.replicate 19 0
  trackerNameRaw := 70 :: 84 :: 50 :: List.replicate 17 0
  numChannels := 2
  moduleLength := 1
  patternRows := [64]
  instrumentSamples := [1]
  bpm := 125
  tempo := 6
  potIndex := 0
  patternNum := 0
  rowNum := 0
  tickNum := 0
  generatedSamples := 0
  loopCount := 0
  maxLoopCount := 0
  latestTriggerInstrument := [0]
  latestTriggerSample := [[0]]
  latestTriggerChannel := [0, 0]
  channelMuted := [false, false]
  instrumentMuted := [false]

/-- A fixture whose module name is space-padded (no zero byte at all), to
exercise the case where the `CStr` view preserves all 20 wire bytes. -/
def spacePadCtx : xm_context :=
  { sampleCtx with moduleNameRaw := 66 :: List.replicate 19 32 }

/-- Dropping the terminating NUL byte: the `CStr` view of `l ++ [0]` equals
the `CStr` view of `l`. -/
theorem takeWhile_append_nul (l : List Nat) :
    (l ++ [0]).takeWhile (fun b => b != 0) = l.takeWhile (fun b => b != 0) := by
  induction l with
  | nil => rfl
  | cons a l ih =>
      by_cases h : a = 0
      · subst h; rfl
      · simp [List.takeWhile_cons, h, ih]

/-- A list with no zero byte is its own `CStr` view. -/
theorem takeWhile_all_ne_zero (l : List Nat) (h : ∀ b ∈ l, b ≠ 0) :
    l.takeWhile (fun b => b != 0) = l := by
  induction l with
  | nil => rfl
  | cons a l ih =>
      have ha : a ≠ 0 := h a (List.mem_cons_self a l)
      simp [List.takeWhile_cons, ha, ih fun b hb => h b (List.mem_cons_of_mem a hb)]

/-- Claim C1: `XMContext::new` returns `Ok` exactly when the native creation
call returns code 0, `ModuleDataNotSane` exactly for code 1,
`MemoryAllocationFailed` exactly for code 2, and `Unknown(c)` carrying the
exact code for any other code; no other outcome is possible. -/
theorem new_result_classification (r : Int) (raw : xm_context) :
    (XMContext.new r raw = Except.ok ⟨raw⟩ ↔ r = 0) ∧
    (XMContext.new r raw = Except.error XMError.ModuleDataNotSane ↔ r = 1) ∧
    (XMContext.new r raw = Except.error XMError.MemoryAllocationFailed ↔ r = 2) ∧
    (XMContext.new r raw = Except.error (XMError.Unknown r) ↔
      ¬(r = 0 ∨ r = 1 ∨ r = 2)) ∧
    (XMContext.new r raw = Except.ok ⟨raw⟩ ∨
      XMContext.new r raw = Except.error XMError.ModuleDataNotSane ∨
      XMContext.new r raw = Except.error XMError.MemoryAllocationFailed ∨
      XMContext.new r raw = Except.error (XMError.Unknown r)) := by
  unfold XMContext.new
  split_ifs with h0 h1 h2 <;> simp_all

/-- Claim C3: `generate_samples` panics (returns no value) exactly on
odd-length output buffers; under the even-length precondition the assertion
never fires. -/
theorem generate_samples_even_precondition (ctx : XMContext) (len : Nat) :
    (ctx.generate_samples len).isSome = true ↔ len % 2 = 0 := by
  unfold XMContext.generate_samples
  split_ifs with h <;> simp [h]

/-- Claim C4: `number_of_rows p` returns normally exactly when
`p < number_of_patterns()`, and `number_of_samples i` returns normally
exactly when `1 ≤ i ≤ number_of_instruments()`; out-of-range arguments
panic instead of returning an error value. -/
theorem index_preconditions (ctx : XMContext) (p i : Nat) :
    ((ctx.number_of_rows p).isSome = true ↔ p < ctx.number_of_patterns) ∧
    ((ctx.number_of_samples i).isSome = true ↔
      (1 ≤ i ∧ i ≤ ctx.number_of_instruments)) := by
  constructor
  · unfold XMContext.number_of_rows
    split_ifs with h <;> simp [h]
  · unfold XMContext.number_of_samples
    split_ifs with h1 h2 <;> simp_all

/-- Claim C2: for every context and every even-length output buffer,
`generate_samples` returns exactly the buffer length. -/
theorem generate_samples_returns_len (ctx : XMContext) (len : Nat)
    (h : len % 2 = 0) :
    (ctx.generate_samples len).map Prod.fst = some len := by
  simp only [XMContext.generate_samples, if_pos h, xm_generate_samples,
    Option.map_some', Option.some.injEq]
  exact Nat.div_mul_cancel (Nat.dvd_of_mod_eq_zero h)

/-- Witness for C2 at a concrete context and buffer length 4. -/
theorem generate_samples_returns_len_witness :
    (XMContext.generate_samples ⟨sampleCtx⟩ 4).map Prod.fst = some 4 :=
  generate_samples_returns_len ⟨sampleCtx⟩ 4 (by decide)

/-- Claim C9: on an even-length buffer the value returned by
`generate_samples` is exactly twice the frame count reported by the native
generator for `len / 2` requested frames, hence even. -/
theorem generate_samples_twice_native (ctx : XMContext) (len : Nat)
    (h : len % 2 = 0) :
    (ctx.generate_samples len).map Prod.fst
      = some ((xm_generate_samples ctx.raw (len / 2)).1 * 2) ∧
    ((xm_generate_samples ctx.raw (len / 2)).1 * 2) % 2 = 0 := by
  constructor
  · simp [XMContext.generate_samples, if_pos h]
  · exact Nat.mul_mod_left _ 2

/-- Witness for C9 at a concrete context and buffer length 6. -/
theorem generate_samples_twice_native_witness :
    (XMContext.generate_samples ⟨sampleCtx⟩ 6).map Prod.fst
      = some ((xm_generate_samples sampleCtx 3).1 * 2) ∧
    ((xm_generate_samples sampleCtx 3).1 * 2) % 2 = 0 :=
  generate_samples_twice_native ⟨sampleCtx⟩ 6 (by decide)

/-- Claim C10: `seek` and `set_max_loop_count` check no preconditions in the
binding and never panic, for all arguments — in contrast with the
index-taking getters and mute operations, which panic on out-of-range
indices. -/
theorem seek_and_set_max_loop_count_total (ctx : XMContext)
    (pot row tick n : Nat) :
    exec (ApiCall.seek pot row tick) ctx
      = some (ApiResult.unit, ctx.seek pot row tick) ∧
    exec (ApiCall.setMaxLoopCount n) ctx
      = some (ApiResult.unit, ctx.set_max_loop_count n) ∧
    exec (ApiCall.numberOfRows ctx.number_of_patterns) ctx = none ∧
    exec (ApiCall.muteChannel 0 true) ctx = none := by
  refine ⟨rfl, rfl, ?_, ?_⟩
  · simp [exec, XMContext.number_of_rows]
  · simp [exec, XMContext.mute_channel]

/-- Counterexample to claim C5: for a wire module name `"A"` followed by 19
zero-padding bytes, `module_name()` returns only `[65]` — the `CStr` view
stops at the first zero byte — not the raw 20 header bytes. -/
theorem module_name_not_raw_bytes_cex :
    XMContext.module_name ⟨sampleCtx⟩ = some [65] ∧
    sampleCtx.moduleNameRaw = 65 :: List.replicate 19 0 ∧
    XMContext.module_name ⟨sampleCtx⟩ ≠ some sampleCtx.moduleNameRaw := by
  refine ⟨by decide, rfl, by decide⟩

/-- Claim C5 (amended): with `STRINGS` enabled, `module_name()` returns
`Some` of the header name bytes truncated at the first zero byte (zero
padding is stripped; bytes before the first zero, spaces included, are
preserved, so a name with no zero byte is returned whole); with `STRINGS`
disabled it returns `None`.  `tracker_name()` behaves the same way. -/
theorem module_name_cstr_view (c : xm_context) :
    (c.stringsEnabled = true →
      XMContext.module_name ⟨c⟩
          = some (c.moduleNameRaw.takeWhile (fun b => b != 0)) ∧
      XMContext.tracker_name ⟨c⟩
          = some (c.trackerNameRaw.takeWhile (fun b => b != 0))) ∧
    (c.stringsEnabled = false →
      XMContext.module_name ⟨c⟩ = none ∧ XMContext.tracker_name ⟨c⟩ = none) ∧
    (c.stringsEnabled = true → (∀ b ∈ c.moduleNameRaw, b ≠ 0) →
      XMContext.module_name ⟨c⟩ = some c.moduleNameRaw) := by
  refine ⟨fun hs => ⟨?_, ?_⟩, fun hs => ⟨?_, ?_⟩, fun hs hnz => ?_⟩
  · simp [XMContext.module_name, xm_get_module_name, hs, cstr_bytes,
      takeWhile_append_nul]
  · simp [XMContext.tracker_name, xm_get_tracker_name, hs, cstr_bytes,
      takeWhile_append_nul]
  · simp [XMContext.module_name, xm_get_module_name, hs]
  · simp [XMContext.tracker_name, xm_get_tracker_name, hs]
  · simp [XMContext.module_name, xm_get_module_name, hs, cstr_bytes,
      takeWhile_append_nul, takeWhile_all_ne_zero _ hnz]

/-- Witness for the amended C5: a space-padded name (no zero byte) is
returned whole. -/
theorem module_name_cstr_view_witness :
    XMContext.module_name ⟨spacePadCtx⟩ = some spacePadCtx.moduleNameRaw :=
  (module_name_cstr_view spacePadCtx).2.2 rfl (by decide)

/-- Claim C6: once a context exists no operation returns an error value:
every method of `XMContext` other than `new` returns a plain value (never an
error) on every input satisfying its documented preconditions. -/
theorem methods_total_under_preconditions (c : ApiCall) (ctx : XMContext)
    (h : precondHolds c ctx = true) : (exec c ctx).isSome = true := by
  cases c <;>
    simp_all [precondHolds, exec, XMContext.generate_samples,
      XMContext.number_of_rows, XMContext.number_of_samples,
      XMContext.latest_trigger_of_instrument, XMContext.latest_trigger_of_sample,
      XMContext.latest_trigger_of_channel, XMContext.mute_channel,
      XMContext.mute_instrument]

/-- Witness for C6: `number_of_samples(1)` on the fixture context. -/
theorem methods_total_under_preconditions_witness :
    (exec (ApiCall.numberOfSamples 1) ⟨sampleCtx⟩).isSome = true :=
  methods_total_under_preconditions (ApiCall.numberOfSamples 1) ⟨sampleCtx⟩
    (by decide)

/-- Claim C7: every introspection getter leaves the context state unchanged,
and a second call of the same getter with the same arguments returns the
same value on the resulting state. -/
theorem getters_readonly (c : ApiCall) (ctx : XMContext) (r : ApiResult)
    (ctx' : XMContext) (hg : c.isGetter = true)
    (he : exec c ctx = some (r, ctx')) :
    ctx' = ctx ∧ exec c ctx' = some (r, ctx') := by
  have hmap : ∀ (o : Option Nat) (f : Nat → ApiResult),
      o.map (fun n => (f n, ctx)) = some (r, ctx') →
      ctx' = ctx ∧ o.map (fun n => (f n, ctx)) = some (r, ctx) := by
    intro o f h
    cases o with
    | none => simp at h
    | some a =>
        simp only [Option.map_some', Option.some.injEq, Prod.mk.injEq] at h
        exact ⟨h.2.symm, by simp [h.1]⟩
  have hpure : ∀ (v : ApiResult),
      (some (v, ctx) : Option (ApiResult × XMContext)) = some (r, ctx') →
      ctx' = ctx ∧ (some (v, ctx) : Option (ApiResult × XMContext)) = some (r, ctx) := by
    intro v h
    simp only [Option.some.injEq, Prod.mk.injEq] at h
    exact ⟨h.2.symm, by simp [h.1]⟩
  cases c <;> simp only [exec] at he ⊢ <;>
    first
      | (obtain ⟨hc, hex⟩ := hmap _ _ he
         subst hc
         exact ⟨rfl, hex⟩)
      | (obtain ⟨hc, hex⟩ := hpure _ he
         subst hc
         exact ⟨rfl, hex⟩)
      | simp [ApiCall.isGetter] at hg

/-- Witness for C7: `position()` on the fixture context. -/
theorem getters_readonly_witness :
    (⟨sampleCtx⟩ : XMContext) = ⟨sampleCtx⟩ ∧
    exec ApiCall.position ⟨sampleCtx⟩
      = some (ApiResult.pos ⟨0, 0, 0, 0⟩, ⟨sampleCtx⟩) :=
  getters_readonly ApiCall.position ⟨sampleCtx⟩ (ApiResult.pos ⟨0, 0, 0, 0⟩)
    ⟨sampleCtx⟩ rfl rfl

/-- Claim C8: playback is deterministic — two runs given identical module
bytes, identical rate and the identical call sequence, through the same
native creation function, produce identical results (creation outcome,
every getter value, every sample count, final state). -/
theorem playback_deterministic
    (create : List Nat → Nat → Int × xm_context)
    (bytes1 bytes2 : List Nat) (rate1 rate2 : Nat)
    (calls1 calls2 : List ApiCall)
    (hb : bytes1 = bytes2) (hr : rate1 = rate2) (hc : calls1 = calls2) :
    runSession create bytes1 rate1 calls1
      = runSession create bytes2 rate2 calls2 := by
  subst hb
  subst hr
  subst hc
  rfl

/-- Witness for C8 at a concrete creation function, module, rate and call
sequence. -/
theorem playback_deterministic_witness :
    runSession (fun _ _ => (0, sampleCtx)) [1, 2] 48000
        [ApiCall.loopCount, ApiCall.generateSamples 4]
      = runSession (fun _ _ => (0, sampleCtx)) [1, 2] 48000
        [ApiCall.loopCount, ApiCall.generateSamples 4] :=
  playback_deterministic (fun _ _ => (0, sampleCtx)) [1, 2] [1, 2] 48000 48000
    [ApiCall.loopCount, ApiCall.generateSamples 4]
    [ApiCall.loopCount, ApiCall.generateSamples 4] rfl rfl rfl
